import Mathlib

/-!
Shallow embedding of the `fsm` header-only state-machine library
(`src/libfsm/include/StateMachine.hpp`) together with its two demo machines
(`src/demos/door/main.cpp`, `src/demos/tcp/main.cpp`) and the unit-test machine
(`src/libfsm/unittest/StateMachineTest.cpp`).

Modelling decisions, each tied to the source:

* A machine specialization `fsm::StateMachine<S1, ..., Sn>` is modelled by a
  `MachineSpec σ ε`: the ordered list `decls` of declared state types (the
  template parameter pack), the statically resolved handler table `handler`
  (which (state type, event type) pairs have a `Handle` member, and which
  `TransitionTo<X>` return type each one has — the SFINAE resolution of
  `detail::InvokeHandleImpl`), and the per-state `Name` capability `name`
  (`fsm::State::Name`, default `"<Unnamed State>"`, overridable per state).
* A machine object is a `StateMachine σ`: the owned instance list `states`
  (`std::tuple<States...> states`, one instance per declared type, in
  declaration order), the active reference `currentState`
  (`std::variant<States *...>`), and an observation log `log` recording every
  `OnStateExit` / `OnStateEnter` hook invocation in order.
* The compile-time check that `Transition<State>` / `TransitionTo<State>` only
  names a declared state type (`std::get<State>(states)` is ill-formed
  otherwise) becomes the precondition `X ∈ m.states`; `Directive.targetOk` is
  that precondition for a directive.
-/

namespace fsm

/-- Hook invocations observable on state instances: `OnStateExit` /
`OnStateEnter` of `fsm::State`, recorded with the state instance they fire on. -/
inductive Hook (σ : Type) where
  | onStateExit : σ → Hook σ
  | onStateEnter : σ → Hook σ
  deriving DecidableEq, Repr

/-- The default result of `fsm::State::Name` for a state type that does not
override the `Name` capability (`StateMachine.hpp` line 237). -/
def defaultStateName : String := "<Unnamed State>"

/-- A transition directive, the value a handler invocation returns:
`fsm::TransitionTo<State>` naming a target state type, or
`fsm::NullTransition` (no state change). -/
inductive Directive (σ : Type) where
  | transitionTo : σ → Directive σ
  | nullTransition : Directive σ
  deriving DecidableEq, Repr

/-- The state-machine object `fsm::StateMachine<States...>`: the tuple of owned
state instances (identified by their state type, in declaration order), the
active reference, and the log of hook invocations fired so far. -/
structure StateMachine (σ : Type) where
  states : List σ
  currentState : σ
  log : List (Hook σ)
  deriving DecidableEq, Repr

/-- A machine specialization: declared state types in order, the statically
resolved `Handle` table, and the `Name` capability of each state type. -/
structure MachineSpec (σ ε : Type) where
  decls : List σ
  handler : σ → ε → Option σ
  name : σ → String

/-- `StateMachine::CallOnStateExit`: invoke `OnStateExit` on the current
state instance (recorded in the log). -/
def StateMachine.CallOnStateExit {σ : Type} (m : StateMachine σ) : StateMachine σ :=
  { m with log := m.log ++ [Hook.onStateExit m.currentState] }

/-- `StateMachine::CallOnStateEnter`: invoke `OnStateEnter` on the current
state instance (recorded in the log). -/
def StateMachine.CallOnStateEnter {σ : Type} (m : StateMachine σ) : StateMachine σ :=
  { m with log := m.log ++ [Hook.onStateEnter m.currentState] }

/-- `StateMachine::Transition<State>`: `CallOnStateExit()`, then
`currentState = &std::get<State>(states)`, then `CallOnStateEnter()`.
The hypothesis `hX` models the build-time requirement that the target is one
of the owned state instances (`std::get` is ill-formed otherwise). -/
def StateMachine.Transition {σ : Type} (m : StateMachine σ) (X : σ)
    (_hX : X ∈ m.states) : StateMachine σ :=
  let m1 := m.CallOnStateExit
  let m2 := { m1 with currentState := X }
  m2.CallOnStateEnter

/-- The build-time requirement a directive imposes on the machine executing it:
`TransitionTo<X>::Execute` instantiates `Transition<X>`, so `X` must be a
declared (owned) state; `NullTransition` imposes nothing. -/
def Directive.targetOk {σ : Type} (d : Directive σ) (m : StateMachine σ) : Prop :=
  match d with
  | Directive.transitionTo X => X ∈ m.states
  | Directive.nullTransition => True

instance {σ : Type} [DecidableEq σ] (d : Directive σ) (m : StateMachine σ) :
    Decidable (d.targetOk m) :=
  match d with
  | Directive.transitionTo X => inferInstanceAs (Decidable (X ∈ m.states))
  | Directive.nullTransition => Decidable.isTrue trivial

/-- Directive execution: `NullTransition::Execute` does nothing,
`TransitionTo<State>::Execute(machine)` calls `machine->Transition<State>()`. -/
def Directive.Execute {σ : Type} (d : Directive σ) (m : StateMachine σ)
    (h : d.targetOk m) : StateMachine σ :=
  match d, h with
  | Directive.transitionTo X, hX => m.Transition X hX
  | Directive.nullTransition, _ => m

/-- `detail::InvokeHandle`: SFINAE handler resolution. If the concrete state
type declares `Handle` for the concrete event type, the call returns that
handler's `TransitionTo` directive; otherwise it returns `NullTransition`. -/
def InvokeHandle {σ ε : Type} (handler : σ → ε → Option σ) (s : σ) (e : ε) :
    Directive σ :=
  match handler s e with
  | some t => Directive.transitionTo t
  | none => Directive.nullTransition

/-- Machine construction: all declared state instances are value-initialized in
the `states` tuple, and `currentState{&std::get<0>(states)}` initializes the
active reference to the first declared state. No hook fires. -/
def MachineSpec.mkMachine {σ ε : Type} (spec : MachineSpec σ ε)
    (h : 0 < spec.decls.length) : StateMachine σ :=
  { states := spec.decls
    currentState := spec.decls.get ⟨0, h⟩
    log := [] }

/-- `StateMachine::Dispatch`: resolve the handler for (active state type,
event type) via `detail::InvokeHandle` and execute the resulting directive. -/
def MachineSpec.Dispatch {σ ε : Type} (spec : MachineSpec σ ε)
    (m : StateMachine σ) (e : ε)
    (h : (InvokeHandle spec.handler m.currentState e).targetOk m) :
    StateMachine σ :=
  (InvokeHandle spec.handler m.currentState e).Execute m h

/-- `StateMachine::GetCurrentStateName`: visit the active reference and return
the active instance's `Name()`. -/
def MachineSpec.GetCurrentStateName {σ ε : Type} (spec : MachineSpec σ ε)
    (m : StateMachine σ) : String :=
  spec.name m.currentState

/-- The active-reference invariant of §3 of the spec: the machine owns exactly
the declared instances, and the active reference is one of them. -/
def MachineInv {σ ε : Type} (spec : MachineSpec σ ε) (m : StateMachine σ) : Prop :=
  m.states = spec.decls ∧ m.currentState ∈ m.states

instance {σ ε : Type} [DecidableEq σ] (spec : MachineSpec σ ε)
    (m : StateMachine σ) : Decidable (MachineInv spec m) :=
  inferInstanceAs (Decidable (m.states = spec.decls ∧ m.currentState ∈ m.states))

/-! ### The door demo machine (`src/demos/door/main.cpp`)

States `ClosedState` and `OpenState` are declared with `FSM_STATE_BEGIN`, whose
`Name()` override returns the stringized type name (`"ClosedState"` /
`"OpenState"`). `ClosedState` handles `OpenEvent` with
`TransitionTo<OpenState>`; `OpenState` handles `CloseEvent` with
`TransitionTo<ClosedState>`. `Door = fsm::StateMachine<ClosedState, OpenState>`. -/

inductive DoorState where
  | ClosedState
  | OpenState
  deriving DecidableEq, Repr

inductive DoorEvent where
  | OpenEvent
  | CloseEvent
  deriving DecidableEq, Repr

def doorHandler : DoorState → DoorEvent → Option DoorState
  | DoorState.ClosedState, DoorEvent.OpenEvent => some DoorState.OpenState
  | DoorState.OpenState, DoorEvent.CloseEvent => some DoorState.ClosedState
  | _, _ => none

def doorName : DoorState → String
  | DoorState.ClosedState => "ClosedState"
  | DoorState.OpenState => "OpenState"

def doorSpec : MachineSpec DoorState DoorEvent :=
  { decls := [DoorState.ClosedState, DoorState.OpenState]
    handler := doorHandler
    name := doorName }

def doorM0 : StateMachine DoorState := doorSpec.mkMachine (by decide)

def doorM1 : StateMachine DoorState :=
  doorSpec.Dispatch doorM0 DoorEvent.OpenEvent (by decide)

def doorM2 : StateMachine DoorState :=
  doorSpec.Dispatch doorM1 DoorEvent.CloseEvent (by decide)

/-! ### The TCP demo machine (`src/demos/tcp/main.cpp`)

Eleven states, none of which overrides `Name()` (so each inherits the base
`fsm::State::Name` returning `"<Unnamed State>"`); `EstablishedState` overrides
`OnStateEnter`. The handler table below transcribes every `Handle` overload of
the demo. Declaration order of the specialization `TcpStateMachine`:
Closed, Listen, SynRcvd, SynSent, Established, FinWait1, FinWait2, Closing,
TimeWait, CloseWait, LastAck. -/

inductive TcpState where
  | ClosedState
  | ListenState
  | SynRcvdState
  | SynSentState
  | EstablishedState
  | FinWait1State
  | FinWait2State
  | ClosingState
  | TimeWaitState
  | CloseWaitState
  | LastAckState
  deriving DecidableEq, Repr

inductive TcpEvent where
  | SynEvent
  | SynAckEvent
  | AckEvent
  | FinEvent
  | FinAckEvent
  | RstEvent
  | TimeoutEvent
  | ActiveOpenEvent
  | PassiveOpenEvent
  | SendDataEvent
  | CloseEvent
  deriving DecidableEq, Repr

def tcpHandler : TcpState → TcpEvent → Option TcpState
  | TcpState.ClosedState, TcpEvent.PassiveOpenEvent => some TcpState.ListenState
  | TcpState.ClosedState, TcpEvent.ActiveOpenEvent => some TcpState.SynSentState
  | TcpState.ListenState, TcpEvent.SendDataEvent => some TcpState.SynSentState
  | TcpState.ListenState, TcpEvent.SynEvent => some TcpState.SynRcvdState
  | TcpState.SynRcvdState, TcpEvent.TimeoutEvent => some TcpState.ClosedState
  | TcpState.SynRcvdState, TcpEvent.RstEvent => some TcpState.ListenState
  | TcpState.SynRcvdState, TcpEvent.AckEvent => some TcpState.EstablishedState
  | TcpState.SynRcvdState, TcpEvent.CloseEvent => some TcpState.FinWait1State
  | TcpState.SynSentState, TcpEvent.CloseEvent => some TcpState.ClosedState
  | TcpState.SynSentState, TcpEvent.SynEvent => some TcpState.SynRcvdState
  | TcpState.SynSentState, TcpEvent.SynAckEvent => some TcpState.EstablishedState
  | TcpState.EstablishedState, TcpEvent.FinEvent => some TcpState.CloseWaitState
  | TcpState.EstablishedState, TcpEvent.CloseEvent => some TcpState.FinWait1State
  | TcpState.FinWait1State, TcpEvent.FinEvent => some TcpState.ClosingState
  | TcpState.FinWait1State, TcpEvent.AckEvent => some TcpState.FinWait2State
  | TcpState.FinWait1State, TcpEvent.FinAckEvent => some TcpState.TimeWaitState
  | TcpState.FinWait2State, TcpEvent.FinEvent => some TcpState.TimeWaitState
  | TcpState.ClosingState, TcpEvent.AckEvent => some TcpState.TimeWaitState
  | TcpState.TimeWaitState, TcpEvent.TimeoutEvent => some TcpState.ClosedState
  | TcpState.CloseWaitState, TcpEvent.CloseEvent => some TcpState.LastAckState
  | TcpState.LastAckState, TcpEvent.AckEvent => some TcpState.ClosedState
  | _, _ => none

def tcpName : TcpState → String
  | TcpState.ClosedState => defaultStateName
  | TcpState.ListenState => defaultStateName
  | TcpState.SynRcvdState => defaultStateName
  | TcpState.SynSentState => defaultStateName
  | TcpState.EstablishedState => defaultStateName
  | TcpState.FinWait1State => defaultStateName
  | TcpState.FinWait2State => defaultStateName
  | TcpState.ClosingState => defaultStateName
  | TcpState.TimeWaitState => defaultStateName
  | TcpState.CloseWaitState => defaultStateName
  | TcpState.LastAckState => defaultStateName

def tcpSpec : MachineSpec TcpState TcpEvent :=
  { decls := [TcpState.ClosedState, TcpState.ListenState, TcpState.SynRcvdState,
      TcpState.SynSentState, TcpState.EstablishedState, TcpState.FinWait1State,
      TcpState.FinWait2State, TcpState.ClosingState, TcpState.TimeWaitState,
      TcpState.CloseWaitState, TcpState.LastAckState]
    handler := tcpHandler
    name := tcpName }

def tcpM0 : StateMachine TcpState := tcpSpec.mkMachine (by decide)

def tcpM1 : StateMachine TcpState :=
  tcpSpec.Dispatch tcpM0 TcpEvent.PassiveOpenEvent (by decide)

def tcpM2 : StateMachine TcpState :=
  tcpSpec.Dispatch tcpM1 TcpEvent.SendDataEvent (by decide)

def tcpM3 : StateMachine TcpState :=
  tcpSpec.Dispatch tcpM2 TcpEvent.SynAckEvent (by decide)

/-! ### The unit-test machine (`src/libfsm/unittest/StateMachineTest.cpp`)

`State1` overrides `Name()` to `"State1"` and handles `Event1` with
`TransitionTo<State2>`; `State2` overrides `Name()` to `"State2"` and handles
`Event2` with `TransitionTo<State1>`. -/

inductive TestState where
  | State1
  | State2
  deriving DecidableEq, Repr

inductive TestEvent where
  | Event1
  | Event2
  deriving DecidableEq, Repr

def testHandler : TestState → TestEvent → Option TestState
  | TestState.State1, TestEvent.Event1 => some TestState.State2
  | TestState.State2, TestEvent.Event2 => some TestState.State1
  | _, _ => none

def testName : TestState → String
  | TestState.State1 => "State1"
  | TestState.State2 => "State2"

def testSpec : MachineSpec TestState TestEvent :=
  { decls := [TestState.State1, TestState.State2]
    handler := testHandler
    name := testName }

def testM0 : StateMachine TestState := testSpec.mkMachine (by decide)

def testM1 : StateMachine TestState :=
  testSpec.Dispatch testM0 TestEvent.Event1 (by decide)

/-- The C++ identifier of each TCP demo state class (metadata used to state
that the reported name is the base-class default, not the type identifier). -/
def tcpStateIdent : TcpState → String
  | TcpState.ClosedState => "ClosedState"
  | TcpState.ListenState => "ListenState"
  | TcpState.SynRcvdState => "SynRcvdState"
  | TcpState.SynSentState => "SynSentState"
  | TcpState.EstablishedState => "EstablishedState"
  | TcpState.FinWait1State => "FinWait1State"
  | TcpState.FinWait2State => "FinWait2State"
  | TcpState.ClosingState => "ClosingState"
  | TcpState.TimeWaitState => "TimeWaitState"
  | TcpState.CloseWaitState => "CloseWaitState"
  | TcpState.LastAckState => "LastAckState"

/-! ### Helper lemmas -/

theorem Transition_def {σ : Type} (m : StateMachine σ) (X : σ) (hX : X ∈ m.states) :
    m.Transition X hX =
      { states := m.states
        currentState := X
        log := m.log ++ [Hook.onStateExit m.currentState, Hook.onStateEnter X] } := by
  simp [StateMachine.Transition, StateMachine.CallOnStateExit,
    StateMachine.CallOnStateEnter]

theorem InvokeHandle_of_none {σ ε : Type} {handler : σ → ε → Option σ} {s : σ}
    {e : ε} (hd : handler s e = none) :
    InvokeHandle handler s e = Directive.nullTransition := by
  simp [InvokeHandle, hd]

theorem InvokeHandle_of_some {σ ε : Type} {handler : σ → ε → Option σ} {s : σ}
    {e : ε} {t : σ} (hd : handler s e = some t) :
    InvokeHandle handler s e = Directive.transitionTo t := by
  simp [InvokeHandle, hd]

theorem Dispatch_of_none {σ ε : Type} (spec : MachineSpec σ ε)
    (m : StateMachine σ) (e : ε) (hd : spec.handler m.currentState e = none)
    (h : (InvokeHandle spec.handler m.currentState e).targetOk m) :
    spec.Dispatch m e h = m := by
  unfold MachineSpec.Dispatch
  revert h
  rw [InvokeHandle_of_none hd]
  intro h
  rfl

theorem Dispatch_of_some {σ ε : Type} (spec : MachineSpec σ ε)
    (m : StateMachine σ) (e : ε) {t : σ}
    (hd : spec.handler m.currentState e = some t) (ht : t ∈ m.states)
    (h : (InvokeHandle spec.handler m.currentState e).targetOk m) :
    spec.Dispatch m e h = m.Transition t ht := by
  unfold MachineSpec.Dispatch
  revert h
  rw [InvokeHandle_of_some hd]
  intro h
  rfl

theorem targetOk_mem {σ ε : Type} {spec : MachineSpec σ ε} {m : StateMachine σ}
    {e : ε} {t : σ} (hd : spec.handler m.currentState e = some t)
    (h : (InvokeHandle spec.handler m.currentState e).targetOk m) :
    t ∈ m.states := by
  rw [InvokeHandle_of_some hd] at h
  exact h

/-! ### Claim theorems -/

/-- Claim C1: executing a `TransitionTo(X)` directive is exactly the machine's
`Transition<X>()` operation, and that operation performs precisely: `OnExit` on
the currently active instance, switch of the active reference to the owned
instance of type `X` (the owned instance list is unchanged), then `OnEnter` on
that instance — exit strictly before entry, appended exactly once each. Since
`X` is arbitrary, this covers the self-transition `X = m.currentState`, where
both hooks still fire exactly once each, in that order, on the same instance. -/
theorem transitionTo_execute_exit_then_enter {σ : Type} (m : StateMachine σ)
    (X : σ) (hX : X ∈ m.states) :
    (Directive.transitionTo X).Execute m hX = m.Transition X hX ∧
    (m.Transition X hX).states = m.states ∧
    (m.Transition X hX).currentState = X ∧
    (m.Transition X hX).log =
      m.log ++ [Hook.onStateExit m.currentState, Hook.onStateEnter X] := by
  refine ⟨rfl, ?_, ?_, ?_⟩ <;> rw [Transition_def]

/-- Witness for C1, at a self-transition of the door machine: the target equals
the currently active state and both hooks fire once each, exit first. -/
theorem transitionTo_execute_exit_then_enter_witness :
    DoorState.ClosedState ∈ doorM0.states ∧
    ((Directive.transitionTo DoorState.ClosedState).Execute doorM0 (by decide) =
        doorM0.Transition DoorState.ClosedState (by decide) ∧
      (doorM0.Transition DoorState.ClosedState (by decide)).states = doorM0.states ∧
      (doorM0.Transition DoorState.ClosedState (by decide)).currentState =
        DoorState.ClosedState ∧
      (doorM0.Transition DoorState.ClosedState (by decide)).log =
        doorM0.log ++ [Hook.onStateExit doorM0.currentState,
          Hook.onStateEnter DoorState.ClosedState]) :=
  ⟨by decide,
    transitionTo_execute_exit_then_enter doorM0 DoorState.ClosedState (by decide)⟩

/-- Claim C2: for an (active state type, event type) pair with no declared
`Handle` member, handler resolution yields `NullTransition`, `Dispatch`
completes and returns the machine unchanged, the current-state name afterwards
equals the one before, and no hook is invoked (the log is unchanged). -/
theorem dispatch_unhandled_noop {σ ε : Type} (spec : MachineSpec σ ε)
    (m : StateMachine σ) (e : ε) (hnone : spec.handler m.currentState e = none)
    (h : (InvokeHandle spec.handler m.currentState e).targetOk m) :
    InvokeHandle spec.handler m.currentState e = Directive.nullTransition ∧
    spec.Dispatch m e h = m ∧
    spec.GetCurrentStateName (spec.Dispatch m e h) = spec.GetCurrentStateName m ∧
    (spec.Dispatch m e h).log = m.log := by
  have h2 := Dispatch_of_none spec m e hnone h
  exact ⟨InvokeHandle_of_none hnone, h2, by rw [h2], by rw [h2]⟩

/-- Witness for C2: the fresh door machine (active state `ClosedState`) has no
handler for `CloseEvent`; dispatching it is a no-op. -/
theorem dispatch_unhandled_noop_witness :
    doorSpec.handler doorM0.currentState DoorEvent.CloseEvent = none ∧
    (InvokeHandle doorSpec.handler doorM0.currentState DoorEvent.CloseEvent =
        Directive.nullTransition ∧
      doorSpec.Dispatch doorM0 DoorEvent.CloseEvent (by decide) = doorM0 ∧
      doorSpec.GetCurrentStateName
          (doorSpec.Dispatch doorM0 DoorEvent.CloseEvent (by decide)) =
        doorSpec.GetCurrentStateName doorM0 ∧
      (doorSpec.Dispatch doorM0 DoorEvent.CloseEvent (by decide)).log = doorM0.log) :=
  ⟨by decide,
    dispatch_unhandled_noop doorSpec doorM0 DoorEvent.CloseEvent (by decide) (by decide)⟩

/-- Claim C3: a freshly constructed machine owns exactly the declared state
instances, in declaration order; its active reference is the first declared
state type, so `GetCurrentStateName` is that state's name; and no hook at all
(in particular no `OnStateEnter`) has fired during construction. -/
theorem mkMachine_initial {σ ε : Type} (spec : MachineSpec σ ε)
    (h : 0 < spec.decls.length) :
    (spec.mkMachine h).states = spec.decls ∧
    (spec.mkMachine h).currentState = spec.decls.get ⟨0, h⟩ ∧
    spec.GetCurrentStateName (spec.mkMachine h) =
      spec.name (spec.decls.get ⟨0, h⟩) ∧
    (spec.mkMachine h).log = [] :=
  ⟨rfl, rfl, rfl, rfl⟩

/-- Witness for C3, at the door machine (two declared states). -/
theorem mkMachine_initial_witness :
    0 < doorSpec.decls.length ∧
    ((doorSpec.mkMachine (by decide)).states = doorSpec.decls ∧
      (doorSpec.mkMachine (by decide)).currentState =
        doorSpec.decls.get ⟨0, by decide⟩ ∧
      doorSpec.GetCurrentStateName (doorSpec.mkMachine (by decide)) =
        doorSpec.name (doorSpec.decls.get ⟨0, by decide⟩) ∧
      (doorSpec.mkMachine (by decide)).log = []) :=
  ⟨by decide, mkMachine_initial doorSpec (by decide)⟩

/-- Claim C4: the active-reference invariant (the machine owns exactly the
declared instances and the active reference designates one of them, so never
null, dangling, or outside the declared set) holds for a fresh machine and is
preserved by `Dispatch` and by `Transition<X>`; `GetCurrentStateName` does not
modify the machine at all. -/
theorem active_reference_invariant {σ ε : Type} (spec : MachineSpec σ ε)
    (h0 : 0 < spec.decls.length) (m : StateMachine σ) (e : ε)
    (h : (InvokeHandle spec.handler m.currentState e).targetOk m)
    (X : σ) (hX : X ∈ m.states) (hm : MachineInv spec m) :
    MachineInv spec (spec.mkMachine h0) ∧
    MachineInv spec (spec.Dispatch m e h) ∧
    MachineInv spec (m.Transition X hX) := by
  refine ⟨⟨rfl, List.get_mem _ _ _⟩, ?_, ?_⟩
  · cases hd : spec.handler m.currentState e with
    | none =>
      rw [Dispatch_of_none spec m e hd h]
      exact hm
    | some t =>
      have ht : t ∈ m.states := targetOk_mem hd h
      rw [Dispatch_of_some spec m e hd ht h, Transition_def]
      exact ⟨hm.1, ht⟩
  · rw [Transition_def]
    exact ⟨hm.1, hX⟩

/-- Witness for C4, at the door machine with a handled event and an explicit
transition target. -/
theorem active_reference_invariant_witness :
    0 < doorSpec.decls.length ∧
    (InvokeHandle doorSpec.handler doorM0.currentState DoorEvent.OpenEvent).targetOk doorM0 ∧
    DoorState.OpenState ∈ doorM0.states ∧
    MachineInv doorSpec doorM0 ∧
    (MachineInv doorSpec (doorSpec.mkMachine (by decide)) ∧
      MachineInv doorSpec (doorSpec.Dispatch doorM0 DoorEvent.OpenEvent (by decide)) ∧
      MachineInv doorSpec (doorM0.Transition DoorState.OpenState (by decide))) :=
  ⟨by decide, by decide, by decide, by decide,
    active_reference_invariant doorSpec (by decide) doorM0 DoorEvent.OpenEvent
      (by decide) DoorState.OpenState (by decide) (by decide)⟩

/-- Claim C5: `GetCurrentStateName` returns exactly the string produced by the
`Name` capability of the currently active state instance, for every machine
state; on the unit-test machine, after a transition the overridden per-state
name of the newly active instance (`"State2"`) is reported, so per-state name
overrides are respected rather than any fixed discriminant-derived label. -/
theorem getCurrentStateName_via_name_capability {σ ε : Type}
    (spec : MachineSpec σ ε) (m : StateMachine σ) :
    spec.GetCurrentStateName m = spec.name m.currentState ∧
    testM1.currentState = TestState.State2 ∧
    testSpec.GetCurrentStateName testM1 = "State2" :=
  ⟨rfl, by decide, by decide⟩

/-- Claim C6: `Transition<X>()` performs exactly the exit/switch/enter sequence
of `TransitionTo(X)` execution; it is defined only under the precondition
`X ∈ m.states` (modelling the build-time rejection of a target outside the
declared state set, via `std::get`), and under that precondition it is a total
function with no runtime failure. -/
theorem transition_build_time_checked {σ : Type} (m : StateMachine σ) (X : σ)
    (hX : X ∈ m.states) :
    m.Transition X hX = (Directive.transitionTo X).Execute m hX ∧
    (m.Transition X hX).currentState = X ∧
    (m.Transition X hX).states = m.states ∧
    (m.Transition X hX).log =
      m.log ++ [Hook.onStateExit m.currentState, Hook.onStateEnter X] := by
  refine ⟨rfl, ?_, ?_, ?_⟩ <;> rw [Transition_def]

/-- Witness for C6, at the door machine transitioning to `OpenState`. -/
theorem transition_build_time_checked_witness :
    DoorState.OpenState ∈ doorM0.states ∧
    (doorM0.Transition DoorState.OpenState (by decide) =
        (Directive.transitionTo DoorState.OpenState).Execute doorM0 (by decide) ∧
      (doorM0.Transition DoorState.OpenState (by decide)).currentState =
        DoorState.OpenState ∧
      (doorM0.Transition DoorState.OpenState (by decide)).states = doorM0.states ∧
      (doorM0.Transition DoorState.OpenState (by decide)).log =
        doorM0.log ++ [Hook.onStateExit doorM0.currentState,
          Hook.onStateEnter DoorState.OpenState]) :=
  ⟨by decide,
    transition_build_time_checked doorM0 DoorState.OpenState (by decide)⟩

/-- Counterexample to claim C7 as stated: the door demo's states are declared
with `FSM_STATE_BEGIN`, whose `Name()` override returns the stringized class
identifier, so the fresh machine's current-state name is `"ClosedState"`,
not `"Closed"`. -/
theorem door_initial_name_ne_Closed :
    doorSpec.GetCurrentStateName doorM0 ≠ "Closed" := by decide

/-- Claim C7 (amended): in the door scenario the fresh machine's current-state
name is `"ClosedState"`; after `Dispatch(OpenEvent)` it is `"OpenState"`; after
a further `Dispatch(CloseEvent)` it is `"ClosedState"` again — the active state
follows Closed → Open → Closed, with the names carrying the full class
identifiers produced by the `FSM_STATE_BEGIN` macro. -/
theorem door_scenario_names :
    doorM0.currentState = DoorState.ClosedState ∧
    doorSpec.GetCurrentStateName doorM0 = "ClosedState" ∧
    doorM1.currentState = DoorState.OpenState ∧
    doorSpec.GetCurrentStateName doorM1 = "OpenState" ∧
    doorM2.currentState = DoorState.ClosedState ∧
    doorSpec.GetCurrentStateName doorM2 = "ClosedState" := by decide

/-- Counterexample to claim C8 as stated: no state of the TCP demo overrides
`Name()`, so after `Dispatch(PassiveOpen); Dispatch(SendData); Dispatch(SynAck)`
the current-state name is the base-class default `"<Unnamed State>"`, not
`"Established"`. -/
theorem tcp_final_name_ne_Established :
    tcpSpec.GetCurrentStateName tcpM3 ≠ "Established" := by decide

/-- Claim C8 (amended): the sequence `Dispatch(PassiveOpen)`,
`Dispatch(SendData)`, `Dispatch(SynAck)` from a fresh TCP machine ends with the
active state being `EstablishedState`, whose entry hook fires exactly once over
the whole sequence; the reported current-state name is the base-class default
`"<Unnamed State>"` since `EstablishedState` does not override `Name()`. -/
theorem tcp_scenario_established :
    tcpM3.currentState = TcpState.EstablishedState ∧
    tcpM3.log.count (Hook.onStateEnter TcpState.EstablishedState) = 1 ∧
    tcpSpec.GetCurrentStateName tcpM3 = defaultStateName := by decide

/-- Claim C9: every state of the TCP demo participates without overriding the
`Name` capability, so whatever state is active, `GetCurrentStateName` returns
exactly the base-class default `"<Unnamed State>"` and never the state class's
identifier. -/
theorem tcp_unnamed_state_default (m : StateMachine TcpState) :
    tcpSpec.GetCurrentStateName m = defaultStateName ∧
    tcpSpec.GetCurrentStateName m ≠ tcpStateIdent m.currentState := by
  have h : ∀ c : TcpState, tcpName c = defaultStateName ∧ tcpName c ≠ tcpStateIdent c := by
    intro c
    cases c <;> exact ⟨rfl, by decide⟩
  exact h m.currentState

/-- Claim C10: dispatch is deterministic and type-driven — for a fixed machine
specialization, the directive selected by `Dispatch(event)` and the resulting
active state depend only on the active state (type) and the event (type): two
machines with the same active state resolve the same directive and end in the
same active state. -/
theorem dispatch_type_driven {σ ε : Type} (spec : MachineSpec σ ε)
    (m1 m2 : StateMachine σ) (e : ε) (hcur : m1.currentState = m2.currentState)
    (h1 : (InvokeHandle spec.handler m1.currentState e).targetOk m1)
    (h2 : (InvokeHandle spec.handler m2.currentState e).targetOk m2) :
    InvokeHandle spec.handler m1.currentState e =
      InvokeHandle spec.handler m2.currentState e ∧
    (spec.Dispatch m1 e h1).currentState = (spec.Dispatch m2 e h2).currentState := by
  refine ⟨by rw [hcur], ?_⟩
  cases hd : spec.handler m1.currentState e with
  | none =>
    have hd2 : spec.handler m2.currentState e = none := by rw [← hcur]; exact hd
    rw [Dispatch_of_none spec m1 e hd h1, Dispatch_of_none spec m2 e hd2 h2]
    exact hcur
  | some t =>
    have hd2 : spec.handler m2.currentState e = some t := by rw [← hcur]; exact hd
    have ht1 : t ∈ m1.states := targetOk_mem hd h1
    have ht2 : t ∈ m2.states := targetOk_mem hd2 h2
    rw [Dispatch_of_some spec m1 e hd ht1 h1, Dispatch_of_some spec m2 e hd2 ht2 h2,
      Transition_def, Transition_def]

/-- Witness for C10: `doorM0` (fresh) and `doorM2` (after a full open/close
round trip) have the same active state but different logs; dispatching
`OpenEvent` selects the same directive and the same resulting active state. -/
theorem dispatch_type_driven_witness :
    doorM0.currentState = doorM2.currentState ∧
    (InvokeHandle doorSpec.handler doorM0.currentState DoorEvent.OpenEvent).targetOk doorM0 ∧
    (InvokeHandle doorSpec.handler doorM2.currentState DoorEvent.OpenEvent).targetOk doorM2 ∧
    (InvokeHandle doorSpec.handler doorM0.currentState DoorEvent.OpenEvent =
        InvokeHandle doorSpec.handler doorM2.currentState DoorEvent.OpenEvent ∧
      (doorSpec.Dispatch doorM0 DoorEvent.OpenEvent (by decide)).currentState =
        (doorSpec.Dispatch doorM2 DoorEvent.OpenEvent (by decide)).currentState) :=
  ⟨by decide, by decide, by decide,
    dispatch_type_driven doorSpec doorM0 doorM2 DoorEvent.OpenEvent (by decide)
      (by decide) (by decide)⟩

end fsm
